import Mathlib

/-!
Shallow embedding of `custom_components/roborock/calendar.py` and
`custom_components/roborock/utils.py` from the homeassistant-roborock
integration, together with theorems about the interval validator, the
event schema, the timer-to-event projection, the update/list/setup
operations and the nested-dictionary helpers.

Stateful code is embedded as explicit trace passing: an operation that
issues remote commands returns the list of commands it sent together
with the error it raised, if any.  Python exceptions are embedded as
`Except` errors.
-/

namespace Roborock

/-- Python `datetime.datetime`, restricted to the fields the code reads
(`hour`, `minute`, `second`, `microsecond` and the date part). -/
structure DateTime where
  year : Nat
  month : Nat
  day : Nat
  hour : Nat
  minute : Nat
  second : Nat
  microsecond : Nat
deriving DecidableEq, Repr

/-- Python `datetime.time`, used by `async_update_event_service`. -/
structure TimeOfDay where
  hour : Nat
  minute : Nat
  second : Nat
deriving DecidableEq, Repr

/-- Truncation of a datetime to the device minute granularity:
drop the sub-minute components. -/
def truncateToMinute (d : DateTime) : DateTime :=
  { d with second := 0, microsecond := 0 }

/-- Modelled from the spec: the vendor library helper
`roborock.util.parse_datetime_to_roborock_datetime` is not part of this
repository.  The spec describes it as recomputing the device-canonical
form of `(start, end)` at minute-level granularity, canonicalizing each
value independently, with the suggested value equal to the input
truncated to minute granularity. -/
def parse_datetime_to_roborock_datetime (start_datetime end_datetime : DateTime) :
    DateTime × DateTime :=
  (truncateToMinute start_datetime, truncateToMinute end_datetime)

/-- Values that may appear in an event payload dictionary
(`dict[str, Any]`): Python `None`, a `datetime.datetime`, a
`datetime.time`, or a string. -/
inductive EventValue where
  | none : EventValue
  | dt : DateTime → EventValue
  | tod : TimeOfDay → EventValue
  | str : String → EventValue
deriving DecidableEq, Repr

/-- An event payload: a Python `dict[str, Any]` as an association list. -/
abbrev Payload := List (String × EventValue)

/-- Association-list lookup, the embedding of Python `dict.__getitem__`
presence. -/
def lookupKey : Payload → String → Option EventValue
  | [], _ => Option.none
  | (k', v') :: rest, k => if k' = k then Option.some v' else lookupKey rest k

/-- Python `obj.get(key)`: `None` when the key is absent. -/
def pyGet (obj : Payload) (key : String) : EventValue :=
  (lookupKey obj key).getD EventValue.none

/-- Python truthiness of the payload values we model: `None` and the
empty string are falsy, datetimes, times and non-empty strings are
truthy. -/
def truthy : EventValue → Bool
  | EventValue.none => false
  | EventValue.str s => !s.isEmpty
  | _ => true

/-- Errors raised while validating an event payload.  `vol.Invalid`
messages are embedded structurally: `intervalInvalid field rejected
suggested` stands for the f-string
"Unexpected \{field} datetime \{rejected} use \{suggested} instead";
`requiredKeyMissing`/`invalidType`/`extraKey` stand for the schema
errors voluptuous raises before the interval validator runs;
`attributeError` stands for a Python `AttributeError` (calling the
vendor parser on a non-datetime). -/
inductive VolError where
  | requiredKeyMissing : String → VolError
  | invalidType : String → VolError
  | extraKey : String → VolError
  | intervalInvalid : String → DateTime → DateTime → VolError
  | attributeError : VolError
deriving DecidableEq, Repr

/-- Schema errors are the errors raised by the voluptuous schema dict
itself, as opposed to the granularity error of the interval validator or a
runtime error. -/
def VolError.isSchemaError : VolError → Bool
  | VolError.requiredKeyMissing _ => true
  | VolError.invalidType _ => true
  | VolError.extraKey _ => true
  | _ => false

/-- Embedding of the inner `validate` function of
`_has_roborock_interval(start_key, end_key)`: when both keys are present (and truthy), the two
values are canonicalized by the vendor parser and each compared with
its original; the first mismatch raises `vol.Invalid` naming the key,
the rejected value and the canonical value; otherwise the object is
returned unchanged. -/
def has_roborock_interval (start_key end_key : String) (obj : Payload) :
    Except VolError Payload :=
  let start_time := pyGet obj start_key
  let end_time := pyGet obj end_key
  if truthy start_time && truthy end_time then
    match start_time, end_time with
    | EventValue.dt st, EventValue.dt en =>
      let parsed := parse_datetime_to_roborock_datetime st en
      if parsed.1 ≠ st then
        Except.error (VolError.intervalInvalid start_key st parsed.1)
      else if parsed.2 ≠ en then
        Except.error (VolError.intervalInvalid end_key en parsed.2)
      else Except.ok obj
    | _, _ => Except.error VolError.attributeError
  else Except.ok obj

/-- Home Assistant calendar field-name constants. -/
def EVENT_START : String := "dtstart"

def EVENT_END : String := "dtend"

def EVENT_SUMMARY : String := "summary"

def EVENT_DESCRIPTION : String := "description"

def EVENT_LOCATION : String := "location"

def EVENT_RRULE : String := "rrule"

/-- Keys of `ENTITY_SERVICE_FIELDS`, the optional Home Assistant entity
service fields spread into the schema. -/
def ENTITY_SERVICE_FIELDS : List String := ["entity_id", "device_id", "area_id"]

/-- Keys the voluptuous schema dict accepts; any other key is rejected
(voluptuous `PREVENT_EXTRA` default). -/
def allowedEventKeys : List String :=
  [EVENT_START, EVENT_END, EVENT_SUMMARY, EVENT_DESCRIPTION, EVENT_LOCATION,
   EVENT_RRULE] ++ ENTITY_SERVICE_FIELDS

/-- Embedding of `cv.datetime` on our payload values: accepts a
`datetime.datetime` instance and rejects `None`, `datetime.time` and
the (opaque, non-datetime-text) strings of this model. -/
def isDatetimeValue : EventValue → Bool
  | EventValue.dt _ => true
  | _ => false

/-- Embedding of `cv.string`: rejects `None`, accepts everything else
(the `str()` coercion it performs is elided, as no claim reads a
coerced field back). -/
def isStringValue : EventValue → Bool
  | EventValue.none => false
  | _ => true

/-- Check one `vol.Required(key)` marker with its value check. -/
def checkRequired (obj : Payload) (key : String) (tycheck : EventValue → Bool) :
    Except VolError Unit :=
  match lookupKey obj key with
  | Option.none => Except.error (VolError.requiredKeyMissing key)
  | Option.some v =>
    if tycheck v then Except.ok () else Except.error (VolError.invalidType key)

/-- Check one `vol.Optional(key)` marker with its value check. -/
def checkOptional (obj : Payload) (key : String) (tycheck : EventValue → Bool) :
    Except VolError Unit :=
  match lookupKey obj key with
  | Option.none => Except.ok ()
  | Option.some v =>
    if tycheck v then Except.ok () else Except.error (VolError.invalidType key)

/-- Reject keys outside the schema dict. -/
def checkExtraKeys (obj : Payload) : Except VolError Unit :=
  match obj.find? (fun kv => !(allowedEventKeys.contains kv.1)) with
  | Option.some kv => Except.error (VolError.extraKey kv.1)
  | Option.none => Except.ok ()

/-- Embedding of `EVENT_SCHEMA`: `vol.All` of the schema dict (required
`dtstart`/`dtend` datetimes, required `summary` string, optional
string fields, optional entity service fields, no extra keys) followed
by `_has_roborock_interval(EVENT_START, EVENT_END)`.  Returns the
validated object. -/
def EVENT_SCHEMA (obj : Payload) : Except VolError Payload := do
  checkExtraKeys obj
  checkRequired obj EVENT_START isDatetimeValue
  checkRequired obj EVENT_END isDatetimeValue
  checkRequired obj EVENT_SUMMARY isStringValue
  checkOptional obj EVENT_DESCRIPTION isStringValue
  checkOptional obj EVENT_LOCATION isStringValue
  checkOptional obj EVENT_RRULE isStringValue
  has_roborock_interval EVENT_START EVENT_END obj

/-- The vendor command identifiers used by the calendar platform. -/
inductive RoborockCommand where
  | GET_VALLEY_ELECTRICITY_TIMER : RoborockCommand
  | SET_VALLEY_ELECTRICITY_TIMER : RoborockCommand
  | CLOSE_VALLEY_ELECTRICITY_TIMER : RoborockCommand
  | GET_DND_TIMER : RoborockCommand
  | SET_DND_TIMER : RoborockCommand
  | CLOSE_DND_TIMER : RoborockCommand
deriving DecidableEq, Repr

/-- Embedding of `RoborockCalendarDescription` (the `base_class` used
only for response decoding is elided). -/
structure RoborockCalendarDescription where
  key : String
  name : String
  translation_key : String
  get_command : RoborockCommand
  update_command : RoborockCommand
  delete_command : RoborockCommand
deriving DecidableEq, Repr

/-- The static `VACUUM_CALENDARS` descriptor table. -/
def VACUUM_CALENDARS : List (String × RoborockCalendarDescription) :=
  [("valley_electricity_timer",
    { key := "valley_electricity_timer"
      name := "Valley Electricity"
      translation_key := "valley_electricity_timer"
      get_command := RoborockCommand.GET_VALLEY_ELECTRICITY_TIMER
      update_command := RoborockCommand.SET_VALLEY_ELECTRICITY_TIMER
      delete_command := RoborockCommand.CLOSE_VALLEY_ELECTRICITY_TIMER }),
   ("dnd_timer",
    { key := "dnd_timer"
      name := "Do not disturb"
      translation_key := "dnd_timer"
      get_command := RoborockCommand.GET_DND_TIMER
      update_command := RoborockCommand.SET_DND_TIMER
      delete_command := RoborockCommand.CLOSE_DND_TIMER })]

/-- A fetched vendor timer value (`RoborockBaseTimer`): enabled flag and
the start/end datetimes its properties expose. -/
structure RoborockBaseTimer where
  start_time : DateTime
  end_time : DateTime
  enabled : Bool
deriving DecidableEq, Repr

/-- Embedding of the Home Assistant `CalendarEvent` with the fields the
code sets (`end` is a Lean keyword, hence `end_`). -/
structure CalendarEvent where
  start : DateTime
  end_ : DateTime
  summary : String
  description : String
  location : String
  recurrence_id : String
  rrule : String
  uid : String
deriving DecidableEq, Repr

/-- Embedding of the `RoborockCalendar.event` property: `None` unless a
timer value is held and enabled; otherwise the projection built from
the timer and the entity description. -/
def RoborockCalendar.event (desc : RoborockCalendarDescription)
    (event_value : Option RoborockBaseTimer) : Option CalendarEvent :=
  match event_value with
  | Option.some v =>
    if v.enabled then
      Option.some
        { start := v.start_time
          end_ := v.end_time
          summary := desc.name
          description := desc.name
          location := "Home"
          recurrence_id := desc.key
          rrule := "FREQ=DAILY"
          uid := desc.key }
    else Option.none
  | Option.none => Option.none

set_option linter.unusedVariables false in
/-- Embedding of `RoborockCalendar.async_get_events`: the date range is
never consulted. -/
def async_get_events (desc : RoborockCalendarDescription)
    (event_value : Option RoborockBaseTimer)
    (start_date end_date : DateTime) : List CalendarEvent :=
  match RoborockCalendar.event desc event_value with
  | Option.some e => [e]
  | Option.none => []

/-- A remote command as issued through `self.send`: the command id and
its positional integer arguments. -/
structure SentCommand where
  command : RoborockCommand
  args : List Nat
deriving DecidableEq, Repr

/-- Embedding of `RoborockCalendar.async_update_event`: validate the
payload with `EVENT_SCHEMA`; on failure the exception propagates before
any send; on success send the update command with
`[start.hour, start.minute, end.hour, end.minute]`.  The result is the
trace of sent commands paired with the raised error, if any. -/
def async_update_event (desc : RoborockCalendarDescription) (event : Payload) :
    List SentCommand × Option VolError :=
  match EVENT_SCHEMA event with
  | Except.error e => ([], Option.some e)
  | Except.ok valid_event =>
    match lookupKey valid_event EVENT_START, lookupKey valid_event EVENT_END with
    | Option.some (EventValue.dt start_time), Option.some (EventValue.dt end_time) =>
      ([{ command := desc.update_command
          args := [start_time.hour, start_time.minute, end_time.hour, end_time.minute] }],
       Option.none)
    | _, _ => ([], Option.some VolError.attributeError)

/-- Embedding of `RoborockCalendar.async_create_event`: delegates to
`async_update_event` with the keyword arguments as the payload. -/
def async_create_event (desc : RoborockCalendarDescription) (kwargs : Payload) :
    List SentCommand × Option VolError :=
  async_update_event desc kwargs

/-- Embedding of `RoborockCalendar.async_update_event_service`: builds
the payload `{"dtstart": dtstart, "dtend": dtend}` from two
`datetime.time` values and delegates to `async_update_event`. -/
def async_update_event_service (desc : RoborockCalendarDescription)
    (dtstart dtend : TimeOfDay) : List SentCommand × Option VolError :=
  async_update_event desc
    [("dtstart", EventValue.tod dtstart), ("dtend", EventValue.tod dtend)]

/-- Outcome of probing the fetch command of one timer kind at setup time:
the command raised a `RoborockException`, or it returned a value
(possibly Python `None`). -/
inductive FetchOutcome where
  | err : FetchOutcome
  | value : Option RoborockBaseTimer → FetchOutcome
deriving DecidableEq, Repr

/-- A calendar entity as constructed during setup. -/
structure RoborockCalendarEntity where
  sensor : String
  description : RoborockCalendarDescription
  initial_event_value : RoborockBaseTimer
deriving DecidableEq, Repr

/-- Embedding of the probing loop of `async_setup_entry` (the
per-coordinator iteration and the mop-model gate around it are elided):
for each timer kind, the fetch command is issued with
`RoborockException` suppressed; when it raised or returned `None` the
kind is skipped with a debug log, otherwise an entity is built from the
returned value. -/
def async_setup_entry (fetch : String → RoborockCalendarDescription → FetchOutcome)
    (sensors : List (String × RoborockCalendarDescription)) :
    List RoborockCalendarEntity :=
  sensors.filterMap fun sd =>
    match fetch sd.1 sd.2 with
    | FetchOutcome.err => Option.none
    | FetchOutcome.value Option.none => Option.none
    | FetchOutcome.value (Option.some t) =>
      Option.some { sensor := sd.1, description := sd.2, initial_event_value := t }

/-- A concrete fetch behaviour used in examples: the valley-electricity
probe raises a `RoborockException`, the dnd probe returns an enabled
timer. -/
def fetchStub : String → RoborockCalendarDescription → FetchOutcome :=
  fun s _ =>
    if s = "valley_electricity_timer" then FetchOutcome.err
    else
      FetchOutcome.value
        (Option.some
          { start_time := ⟨2023, 5, 1, 8, 0, 0, 0⟩
            end_time := ⟨2023, 5, 1, 8, 30, 0, 0⟩
            enabled := true })

end Roborock

namespace RoborockUtils

/-- A Python value as seen by the nested-dictionary helpers: a dict
(association list preserving insertion order), `None`, or an opaque
non-dict non-None leaf. -/
inductive PyVal where
  | vdict : List (String × PyVal) → PyVal
  | vnone : PyVal
  | vleaf : Nat → PyVal

/-- Dict lookup (`dict.get` without default). -/
def dictGet : List (String × PyVal) → String → Option PyVal
  | [], _ => Option.none
  | (k', v') :: rest, k => if k' = k then Option.some v' else dictGet rest k

/-- Dict assignment `d[k] = v`: replace in place, else append. -/
def dictInsert : List (String × PyVal) → String → PyVal → List (String × PyVal)
  | [], k, v => [(k, v)]
  | (k', v') :: rest, k, v =>
    if k' = k then (k', v) :: rest else (k', v') :: dictInsert rest k v

/-- Embedding of the loop of `set_nested_dict` over the split keys:
`setdefault` each intermediate key to a (possibly fresh) dict, then
assign the last key.  A non-dict intermediate raises
(`AttributeError`/`TypeError`), embedded as `Except.error`. -/
def setKeys : PyVal → List String → PyVal → Except Unit PyVal
  | PyVal.vdict es, [k], v => Except.ok (PyVal.vdict (dictInsert es k v))
  | PyVal.vdict es, k :: k' :: rest, v =>
    match setKeys ((dictGet es k).getD (PyVal.vdict [])) (k' :: rest) v with
    | Except.ok sub' => Except.ok (PyVal.vdict (dictInsert es k sub'))
    | Except.error e => Except.error e
  | _, _, _ => Except.error ()

/-- Embedding of the loop of `get_nested_dict`: `here = here.get(key)`,
returning the default as soon as `here` becomes `None`; calling `.get`
on a non-dict raises, embedded as `Except.error`. -/
def getKeys : PyVal → List String → PyVal → Except Unit PyVal
  | here, [], _ => Except.ok here
  | PyVal.vdict es, k :: rest, dflt =>
    match dictGet es k with
    | Option.none => Except.ok dflt
    | Option.some PyVal.vnone => Except.ok dflt
    | Option.some v => getKeys v rest dflt
  | _, _ :: _, _ => Except.error ()

/-- Embedding of `set_nested_dict(data, key_string, value)`.  The dotted
`key_string` is embedded as its `split(".")` component list, which in
Python is always non-empty. -/
def set_nested_dict (data : List (String × PyVal)) (keys : List String)
    (value : PyVal) : Except Unit PyVal :=
  setKeys (PyVal.vdict data) keys value

/-- Embedding of `get_nested_dict(data, key_string, default)`, the
dotted path again embedded as its component list. -/
def get_nested_dict (data : List (String × PyVal)) (keys : List String)
    (default : PyVal) : Except Unit PyVal :=
  getKeys (PyVal.vdict data) keys default

/-- Every key consulted along the path is either absent or maps to a
nested dictionary (once a key is absent, deeper dicts are created
fresh, so the rest of the path is trivially clear). -/
def pathClear : PyVal → List String → Bool
  | PyVal.vdict _, [] => true
  | PyVal.vdict es, k :: rest =>
    match dictGet es k with
    | Option.none => true
    | Option.some (PyVal.vdict es') => pathClear (PyVal.vdict es') rest
    | Option.some _ => false
  | _, _ => false

/-- Walking the path hits a key that is absent or maps to `None`. -/
def hitsNone : PyVal → List String → Bool
  | _, [] => false
  | PyVal.vdict es, k :: rest =>
    match dictGet es k with
    | Option.none => true
    | Option.some PyVal.vnone => true
    | Option.some v => hitsNone v rest
  | _, _ :: _ => false

end RoborockUtils

namespace Roborock

/-- Helper: a successful `Except` bind splits into a successful head and
a successful continuation. -/
theorem exceptBind_ok {ε α β : Type} {x : Except ε α} {f : α → Except ε β} {b : β}
    (h : x >>= f = Except.ok b) : ∃ a, x = Except.ok a ∧ f a = Except.ok b := by
  cases x with
  | error e => simp [Bind.bind, Except.bind] at h
  | ok a => exact ⟨a, rfl, by simpa [Bind.bind, Except.bind] using h⟩

/-- Helper: a successful required-field check yields a present value
passing the type check. -/
theorem checkRequired_ok {obj : Payload} {key : String} {tycheck : EventValue → Bool}
    (h : checkRequired obj key tycheck = Except.ok ()) :
    ∃ v, lookupKey obj key = Option.some v ∧ tycheck v = true := by
  unfold checkRequired at h
  cases hl : lookupKey obj key with
  | none => rw [hl] at h; cases h
  | some v =>
    rw [hl] at h
    by_cases ht : tycheck v = true
    · exact ⟨v, rfl, ht⟩
    · simp [ht] at h

/-- Helper: the interval validator never alters the object it accepts. -/
theorem has_roborock_interval_ok_eq {sk ek : String} {obj v : Payload}
    (h : has_roborock_interval sk ek obj = Except.ok v) : v = obj := by
  unfold has_roborock_interval at h
  dsimp only at h
  split at h
  · split at h
    · split at h
      · cases h
      · split at h
        · cases h
        · cases h; rfl
    · cases h
  · cases h; rfl

/-- C1: a pair of datetimes already in device-canonical (minute
granularity) form passes the interval validator, which succeeds and
returns the input object unchanged, its start and end entries still the
caller-supplied values. -/
theorem interval_validator_accepts_canonical (obj : Payload) (st en : DateTime)
    (hs : lookupKey obj EVENT_START = Option.some (EventValue.dt st))
    (he : lookupKey obj EVENT_END = Option.some (EventValue.dt en))
    (hcs : truncateToMinute st = st) (hce : truncateToMinute en = en) :
    has_roborock_interval EVENT_START EVENT_END obj = Except.ok obj := by
  unfold has_roborock_interval pyGet
  rw [hs, he]
  simp [truthy, parse_datetime_to_roborock_datetime, hcs, hce]

/-- Witness for C1 at a concrete payload with canonical datetimes. -/
theorem interval_validator_accepts_canonical_witness :
    has_roborock_interval EVENT_START EVENT_END
      [(EVENT_START, EventValue.dt ⟨2023, 5, 1, 22, 15, 0, 0⟩),
       (EVENT_END, EventValue.dt ⟨2023, 5, 1, 6, 5, 0, 0⟩)] =
      Except.ok
        [(EVENT_START, EventValue.dt ⟨2023, 5, 1, 22, 15, 0, 0⟩),
         (EVENT_END, EventValue.dt ⟨2023, 5, 1, 6, 5, 0, 0⟩)] :=
  interval_validator_accepts_canonical _ ⟨2023, 5, 1, 22, 15, 0, 0⟩
    ⟨2023, 5, 1, 6, 5, 0, 0⟩ (by decide) (by decide) rfl rfl

/-- C2: a pair with at least one non-canonical value fails the interval
validator with an error naming the failing field and carrying both the
rejected value and the canonical (minute-truncated) value that would
have been accepted; start is checked first. -/
theorem interval_validator_rejects_noncanonical (obj : Payload) (st en : DateTime)
    (hs : lookupKey obj EVENT_START = Option.some (EventValue.dt st))
    (he : lookupKey obj EVENT_END = Option.some (EventValue.dt en))
    (hmis : truncateToMinute st ≠ st ∨ truncateToMinute en ≠ en) :
    ∃ field rejected,
      has_roborock_interval EVENT_START EVENT_END obj =
        Except.error
          (VolError.intervalInvalid field rejected (truncateToMinute rejected)) ∧
      ((field = EVENT_START ∧ rejected = st ∧ truncateToMinute st ≠ st) ∨
       (field = EVENT_END ∧ rejected = en ∧ truncateToMinute en ≠ en ∧
        truncateToMinute st = st)) := by
  unfold has_roborock_interval pyGet
  rw [hs, he]
  by_cases hstart : truncateToMinute st = st
  · rcases hmis with h | hend
    · exact absurd hstart h
    · refine ⟨EVENT_END, en, ?_, Or.inr ⟨rfl, rfl, hend, hstart⟩⟩
      simp [truthy, parse_datetime_to_roborock_datetime, hstart, hend]
  · refine ⟨EVENT_START, st, ?_, Or.inl ⟨rfl, rfl, hstart⟩⟩
    simp [truthy, parse_datetime_to_roborock_datetime, hstart]

/-- Witness for C2: a start with 30 seconds is rejected, with the
minute-truncated start suggested. -/
theorem interval_validator_rejects_noncanonical_witness :
    ∃ field rejected,
      has_roborock_interval EVENT_START EVENT_END
        [(EVENT_START, EventValue.dt ⟨2023, 5, 1, 22, 15, 30, 0⟩),
         (EVENT_END, EventValue.dt ⟨2023, 5, 1, 6, 5, 0, 0⟩)] =
        Except.error
          (VolError.intervalInvalid field rejected (truncateToMinute rejected)) ∧
      ((field = EVENT_START ∧ rejected = ⟨2023, 5, 1, 22, 15, 30, 0⟩ ∧
        truncateToMinute ⟨2023, 5, 1, 22, 15, 30, 0⟩ ≠ ⟨2023, 5, 1, 22, 15, 30, 0⟩) ∨
       (field = EVENT_END ∧ rejected = ⟨2023, 5, 1, 6, 5, 0, 0⟩ ∧
        truncateToMinute ⟨2023, 5, 1, 6, 5, 0, 0⟩ ≠ ⟨2023, 5, 1, 6, 5, 0, 0⟩ ∧
        truncateToMinute ⟨2023, 5, 1, 22, 15, 30, 0⟩ = ⟨2023, 5, 1, 22, 15, 30, 0⟩)) :=
  interval_validator_rejects_noncanonical _ ⟨2023, 5, 1, 22, 15, 30, 0⟩
    ⟨2023, 5, 1, 6, 5, 0, 0⟩ (by decide) (by decide) (Or.inl (by decide))

/-- C7: when the start key or the end key is absent from the object the
interval validator performs no check and returns the object unchanged. -/
theorem interval_validator_skips_missing (sk ek : String) (obj : Payload)
    (h : lookupKey obj sk = Option.none ∨ lookupKey obj ek = Option.none) :
    has_roborock_interval sk ek obj = Except.ok obj := by
  unfold has_roborock_interval pyGet
  rcases h with h | h
  · rw [h]; simp [truthy]
  · rw [h]; simp [truthy]

/-- Witness for C7: a payload missing the end key is returned
unchanged. -/
theorem interval_validator_skips_missing_witness :
    has_roborock_interval EVENT_START EVENT_END
      [(EVENT_START, EventValue.dt ⟨2023, 5, 1, 22, 15, 30, 0⟩)] =
      Except.ok [(EVENT_START, EventValue.dt ⟨2023, 5, 1, 22, 15, 30, 0⟩)] :=
  interval_validator_skips_missing EVENT_START EVENT_END _ (Or.inr (by decide))

/-- C4: the event projection of a held timer value is none when the
timer is disabled, and otherwise carries the start/end of the timer
verbatim, the name of the description as summary and description, the
constant location, the key of the description as uid and recurrence id, and
the fixed daily recurrence rule. -/
theorem event_projection_of_timer (desc : RoborockCalendarDescription)
    (t : RoborockBaseTimer) :
    RoborockCalendar.event desc (Option.some t) =
      (if t.enabled then
        Option.some
          { start := t.start_time
            end_ := t.end_time
            summary := desc.name
            description := desc.name
            location := "Home"
            recurrence_id := desc.key
            rrule := "FREQ=DAILY"
            uid := desc.key }
      else Option.none) := rfl

/-- C6: `async_get_events` never consults the requested range: any two
ranges give the same result, namely the current event projection
wrapped in a zero-or-one-element list. -/
theorem get_events_ignores_range (desc : RoborockCalendarDescription)
    (event_value : Option RoborockBaseTimer) (s1 e1 s2 e2 : DateTime) :
    async_get_events desc event_value s1 e1 = async_get_events desc event_value s2 e2 ∧
    async_get_events desc event_value s1 e1 =
      (RoborockCalendar.event desc event_value).toList := by
  cases h : RoborockCalendar.event desc event_value <;>
    simp [async_get_events, h]

/-- C9: the update-event service builds a payload holding only the
start and end keys with `datetime.time` values, so the schema always
fails (first on the non-datetime start; the required summary field is
missing as well) and no remote command is ever sent. -/
theorem update_event_service_always_fails (desc : RoborockCalendarDescription)
    (dtstart dtend : TimeOfDay) :
    async_update_event_service desc dtstart dtend =
      ([], Option.some (VolError.invalidType EVENT_START)) ∧
    checkRequired
      [("dtstart", EventValue.tod dtstart), ("dtend", EventValue.tod dtend)]
      EVENT_SUMMARY isStringValue =
      Except.error (VolError.requiredKeyMissing EVENT_SUMMARY) ∧
    (VolError.invalidType EVENT_START).isSchemaError = true :=
  ⟨rfl, rfl, rfl⟩

/-- C3: when schema validation of the payload fails, the error
propagates out of `async_update_event` with an empty sent-command
trace: no remote command is issued, so no device state is mutated. -/
theorem update_event_sends_nothing_on_invalid (desc : RoborockCalendarDescription)
    (event : Payload) (e : VolError) (h : EVENT_SCHEMA event = Except.error e) :
    async_update_event desc event = ([], Option.some e) := by
  unfold async_update_event
  rw [h]

/-- Witness for C3 at the empty payload, which fails the schema. -/
theorem update_event_sends_nothing_on_invalid_witness :
    EVENT_SCHEMA [] = Except.error (VolError.requiredKeyMissing EVENT_START) ∧
    async_update_event (VACUUM_CALENDARS.get ⟨1, by decide⟩).2 [] =
      ([], Option.some (VolError.requiredKeyMissing EVENT_START)) :=
  ⟨rfl, update_event_sends_nothing_on_invalid _ [] _ rfl⟩

/-- Helper: a payload accepted by `EVENT_SCHEMA` is returned unchanged
and its required start and end fields are present datetimes. -/
theorem event_schema_ok (event valid : Payload)
    (h : EVENT_SCHEMA event = Except.ok valid) :
    valid = event ∧
    (∃ st, lookupKey event EVENT_START = Option.some (EventValue.dt st)) ∧
    (∃ en, lookupKey event EVENT_END = Option.some (EventValue.dt en)) := by
  unfold EVENT_SCHEMA at h
  obtain ⟨a1, h1, h⟩ := exceptBind_ok h
  obtain ⟨a2, h2, h⟩ := exceptBind_ok h
  obtain ⟨a3, h3, h⟩ := exceptBind_ok h
  obtain ⟨a4, h4, h⟩ := exceptBind_ok h
  obtain ⟨a5, h5, h⟩ := exceptBind_ok h
  obtain ⟨a6, h6, h⟩ := exceptBind_ok h
  obtain ⟨a7, h7, h⟩ := exceptBind_ok h
  cases a2; cases a3
  obtain ⟨v1, hv1, ht1⟩ := checkRequired_ok h2
  obtain ⟨v2, hv2, ht2⟩ := checkRequired_ok h3
  refine ⟨has_roborock_interval_ok_eq h, ?_, ?_⟩
  · cases v1 with
    | dt d => exact ⟨d, hv1⟩
    | none => simp [isDatetimeValue] at ht1
    | tod t => simp [isDatetimeValue] at ht1
    | str s => simp [isDatetimeValue] at ht1
  · cases v2 with
    | dt d => exact ⟨d, hv2⟩
    | none => simp [isDatetimeValue] at ht2
    | tod t => simp [isDatetimeValue] at ht2
    | str s => simp [isDatetimeValue] at ht2

/-- C5: a payload that passes validation makes `async_update_event`
send exactly one remote command, the update command of the description, with
positional arguments `[start.hour, start.minute, end.hour,
end.minute]`, and raise no error. -/
theorem update_event_single_send_on_valid (desc : RoborockCalendarDescription)
    (event valid : Payload) (h : EVENT_SCHEMA event = Except.ok valid) :
    ∃ st en,
      lookupKey event EVENT_START = Option.some (EventValue.dt st) ∧
      lookupKey event EVENT_END = Option.some (EventValue.dt en) ∧
      async_update_event desc event =
        ([{ command := desc.update_command
            args := [st.hour, st.minute, en.hour, en.minute] }], Option.none) := by
  obtain ⟨hvalid, ⟨st, hst⟩, ⟨en, hen⟩⟩ := event_schema_ok event valid h
  subst hvalid
  refine ⟨st, en, hst, hen, ?_⟩
  unfold async_update_event
  rw [h]
  dsimp only
  rw [hst, hen]

/-- Witness for C5: start 22:15 and end 06:05 with a summary pass the
schema and produce the single command with args `[22, 15, 6, 5]`. -/
theorem update_event_single_send_on_valid_witness :
    ∃ st en,
      lookupKey
        [(EVENT_START, EventValue.dt ⟨2023, 5, 1, 22, 15, 0, 0⟩),
         (EVENT_END, EventValue.dt ⟨2023, 5, 1, 6, 5, 0, 0⟩),
         (EVENT_SUMMARY, EventValue.str "Do not disturb")] EVENT_START =
        Option.some (EventValue.dt st) ∧
      lookupKey
        [(EVENT_START, EventValue.dt ⟨2023, 5, 1, 22, 15, 0, 0⟩),
         (EVENT_END, EventValue.dt ⟨2023, 5, 1, 6, 5, 0, 0⟩),
         (EVENT_SUMMARY, EventValue.str "Do not disturb")] EVENT_END =
        Option.some (EventValue.dt en) ∧
      async_update_event (VACUUM_CALENDARS.get ⟨1, by decide⟩).2
        [(EVENT_START, EventValue.dt ⟨2023, 5, 1, 22, 15, 0, 0⟩),
         (EVENT_END, EventValue.dt ⟨2023, 5, 1, 6, 5, 0, 0⟩),
         (EVENT_SUMMARY, EventValue.str "Do not disturb")] =
        ([{ command := (VACUUM_CALENDARS.get ⟨1, by decide⟩).2.update_command
            args := [st.hour, st.minute, en.hour, en.minute] }], Option.none) :=
  update_event_single_send_on_valid _ _ _ rfl

/-- C8: a timer kind whose fetch raised a `RoborockException` or
returned `None` contributes no entity during setup, while the kinds
before and after it are still probed and contribute exactly their own
entities. -/
theorem setup_skips_unsupported_kind
    (fetch : String → RoborockCalendarDescription → FetchOutcome)
    (pre post : List (String × RoborockCalendarDescription))
    (k : String) (d : RoborockCalendarDescription)
    (h : fetch k d = FetchOutcome.err ∨
         fetch k d = FetchOutcome.value Option.none) :
    async_setup_entry fetch (pre ++ (k, d) :: post) =
      async_setup_entry fetch pre ++ async_setup_entry fetch post := by
  unfold async_setup_entry
  rw [List.filterMap_append, List.filterMap_cons]
  rcases h with h | h <;> simp [h]

/-- Witness for C8: with `fetchStub` the valley-electricity kind raises
and is skipped while the dnd kind still yields its entity. -/
theorem setup_skips_unsupported_kind_witness :
    (fetchStub "valley_electricity_timer" (VACUUM_CALENDARS.get ⟨0, by decide⟩).2 =
       FetchOutcome.err ∨
     fetchStub "valley_electricity_timer" (VACUUM_CALENDARS.get ⟨0, by decide⟩).2 =
       FetchOutcome.value Option.none) ∧
    async_setup_entry fetchStub
      ([] ++ ("valley_electricity_timer", (VACUUM_CALENDARS.get ⟨0, by decide⟩).2) ::
        [("dnd_timer", (VACUUM_CALENDARS.get ⟨1, by decide⟩).2)]) =
      async_setup_entry fetchStub [] ++
        async_setup_entry fetchStub
          [("dnd_timer", (VACUUM_CALENDARS.get ⟨1, by decide⟩).2)] ∧
    async_setup_entry fetchStub
      [("dnd_timer", (VACUUM_CALENDARS.get ⟨1, by decide⟩).2)] =
      [{ sensor := "dnd_timer"
         description := (VACUUM_CALENDARS.get ⟨1, by decide⟩).2
         initial_event_value :=
           { start_time := ⟨2023, 5, 1, 8, 0, 0, 0⟩
             end_time := ⟨2023, 5, 1, 8, 30, 0, 0⟩
             enabled := true } }] :=
  ⟨Or.inl (by decide),
   setup_skips_unsupported_kind fetchStub [] _ _ _ (Or.inl (by decide)),
   by decide⟩

end Roborock

namespace RoborockUtils

/-- Helper: looking up a key just assigned finds its value. -/
theorem dictGet_dictInsert_self (es : List (String × PyVal)) (k : String) (v : PyVal) :
    dictGet (dictInsert es k v) k = Option.some v := by
  induction es with
  | nil => simp [dictInsert, dictGet]
  | cons kv rest ih =>
    obtain ⟨k', v'⟩ := kv
    by_cases h : k' = k
    · simp [dictInsert, dictGet, h]
    · simp [dictInsert, dictGet, h, ih]

/-- Helper: a clear path through the empty dict. -/
theorem pathClear_nilDict (keys : List String) :
    pathClear (PyVal.vdict []) keys = true := by
  cases keys with
  | nil => rfl
  | cons k rest => simp [pathClear, dictGet]

/-- Helper: along a clear path, setting a non-None value and reading it
back through the same keys succeeds, the written dict staying a dict. -/
theorem setKeys_getKeys_roundtrip (keys : List String) :
    ∀ (es : List (String × PyVal)) (v dflt : PyVal), keys ≠ [] →
      pathClear (PyVal.vdict es) keys = true → v ≠ PyVal.vnone →
      ∃ es', setKeys (PyVal.vdict es) keys v = Except.ok (PyVal.vdict es') ∧
        getKeys (PyVal.vdict es') keys dflt = Except.ok v := by
  induction keys with
  | nil => intro es v dflt hk; exact absurd rfl hk
  | cons k rest ih =>
    intro es v dflt _ hclear hv
    cases rest with
    | nil =>
      refine ⟨dictInsert es k v, rfl, ?_⟩
      cases v with
      | vnone => exact absurd rfl hv
      | vdict es2 => simp [getKeys, dictGet_dictInsert_self]
      | vleaf n => simp [getKeys, dictGet_dictInsert_self]
    | cons k2 rest2 =>
      have hsub : ∃ sub, (dictGet es k).getD (PyVal.vdict []) = PyVal.vdict sub ∧
          pathClear (PyVal.vdict sub) (k2 :: rest2) = true := by
        rw [pathClear] at hclear
        cases hg : dictGet es k with
        | none => exact ⟨[], rfl, pathClear_nilDict _⟩
        | some w =>
          rw [hg] at hclear
          cases w with
          | vdict es1 => exact ⟨es1, rfl, hclear⟩
          | vnone => cases hclear
          | vleaf n => cases hclear
      obtain ⟨sub, hsubeq, hsubclear⟩ := hsub
      obtain ⟨es1', hset, hget⟩ :=
        ih sub v dflt (by intro hh; cases hh) hsubclear hv
      refine ⟨dictInsert es k (PyVal.vdict es1'), ?_, ?_⟩
      · rw [setKeys, hsubeq, hset]
      · rw [getKeys, dictGet_dictInsert_self]
        exact hget

/-- Helper: whenever the walk hits an absent or None-valued key the
lookup returns the supplied default. -/
theorem getKeys_default_of_hitsNone (keys : List String) :
    ∀ (d dflt : PyVal), hitsNone d keys = true →
      getKeys d keys dflt = Except.ok dflt := by
  induction keys with
  | nil => intro d dflt h; simp [hitsNone] at h
  | cons k rest ih =>
    intro d dflt h
    cases d with
    | vnone => simp [hitsNone] at h
    | vleaf n => simp [hitsNone] at h
    | vdict es =>
      rw [hitsNone] at h
      cases hg : dictGet es k with
      | none => rw [getKeys, hg]
      | some w =>
        rw [hg] at h
        cases w with
        | vnone => rw [getKeys, hg]
        | vdict es1 =>
          rw [getKeys, hg]
          exact ih _ dflt h
        | vleaf n =>
          rw [getKeys, hg]
          exact ih _ dflt h

/-- C10: for a dict, a non-empty dotted key path (embedded as its
non-empty component list) every consulted key of which maps to nothing
or to a nested dict, and a non-None value, `set_nested_dict` succeeds
and a subsequent `get_nested_dict` over the same path returns the value
just set; and `get_nested_dict` returns the default whenever the walk
meets a key that is absent or maps to None. -/
theorem nested_dict_set_get_roundtrip (data : List (String × PyVal))
    (keys : List String) (v dflt : PyVal) (hk : keys ≠ [])
    (hclear : pathClear (PyVal.vdict data) keys = true)
    (hv : v ≠ PyVal.vnone) :
    (∃ data', set_nested_dict data keys v = Except.ok (PyVal.vdict data') ∧
       get_nested_dict data' keys dflt = Except.ok v) ∧
    (hitsNone (PyVal.vdict data) keys = true →
       get_nested_dict data keys dflt = Except.ok dflt) := by
  constructor
  · obtain ⟨es', hset, hget⟩ := setKeys_getKeys_roundtrip keys data v dflt hk hclear hv
    exact ⟨es', hset, hget⟩
  · intro hhit
    exact getKeys_default_of_hitsNone keys _ dflt hhit

/-- Witness for C10: setting `7` at path `a.b` in the empty dict and
reading it back; reading `a.b` from the empty dict gives the default. -/
theorem nested_dict_set_get_roundtrip_witness :
    (∃ data', set_nested_dict [] ["a", "b"] (PyVal.vleaf 7) =
        Except.ok (PyVal.vdict data') ∧
       get_nested_dict data' ["a", "b"] (PyVal.vleaf 0) =
        Except.ok (PyVal.vleaf 7)) ∧
    (hitsNone (PyVal.vdict []) ["a", "b"] = true →
       get_nested_dict [] ["a", "b"] (PyVal.vleaf 0) =
        Except.ok (PyVal.vleaf 0)) :=
  nested_dict_set_get_roundtrip [] ["a", "b"] (PyVal.vleaf 7) (PyVal.vleaf 0)
    (by intro hh; cases hh) rfl (by intro hh; cases hh)

end RoborockUtils
